import Mathlib

/-!
Shallow embedding of the clothing recommendation engine
(fitting_system/ai_modules/recommendation_engine.py).

The Django models (Size, Product, ProductVariant, Color, Inventory) live
outside the engine; following the data model of the design document they are
embedded as plain records, with the Color and Inventory rows folded into the
variant record (a variant carries its color name, its hex code and its stock
quantity; "available" means quantity > 0).  A database snapshot is a
`Catalog` of lists; Django querysets preserve snapshot order, `first()` is
`List.find?` on the filter predicate, and `order_by` / Python `list.sort`
are stable sorts, embedded as `List.insertionSort`.  Python floats are
embedded as rationals.  The skin-tone-to-color mapping is the external
Color Analyzer collaborator and is passed in as a function parameter.
-/


/-- A row of the external Size model: a named size range with chest and
waist bounds. -/
structure SizeRange where
  name : String
  chest_min : ℚ
  chest_max : ℚ
  waist_min : ℚ
  waist_max : ℚ
deriving DecidableEq, Repr

/-- A row of the external Product model (the fields the engine reads). -/
structure Product where
  id : Nat
  name : String
  category : String
  gender : String
  fit_type : String
deriving DecidableEq, Repr

/-- A row of the external ProductVariant model, with its Color row
(name, hex code) and its Inventory quantity folded in. -/
structure ProductVariant where
  product_id : Nat
  size_name : String
  color_name : String
  color_hex : String
  quantity : Nat
deriving DecidableEq, Repr

/-- A snapshot of the external catalog store. -/
structure Catalog where
  sizes : List SizeRange
  products : List Product
  variants : List ProductVariant
deriving DecidableEq, Repr

/-- The measurements dict.  A key absent from the Python dict is read back
through `dict.get(key, 0)` everywhere in the engine, so an absent key is
observationally the value 0 and every field is total here. -/
structure Measurements where
  height : ℚ
  chest : ℚ
  waist : ℚ
  shoulder_width : ℚ
  hip : ℚ
  inseam : ℚ
  torso_length : ℚ
  arm_length : ℚ
deriving DecidableEq, Repr

/-- dict.get(key, 0) on a measurements dict. -/
def Measurements.get (m : Measurements) (key : String) : ℚ :=
  if key = "height" then m.height
  else if key = "chest" then m.chest
  else if key = "waist" then m.waist
  else if key = "shoulder_width" then m.shoulder_width
  else if key = "hip" then m.hip
  else if key = "inseam" then m.inseam
  else if key = "torso_length" then m.torso_length
  else if key = "arm_length" then m.arm_length
  else 0

/-- A BodyScan model instance (the fields the engine reads).  The scan
measurement fields that Python guards with a truthiness test before copying
into the measurements dict are total rationals here: a `None` or `0` field
is the value 0, which is observationally identical downstream because every
read goes through `dict.get(key, 0)`. -/
structure BodyScan where
  height : ℚ
  chest : ℚ
  waist : ℚ
  shoulder_width : ℚ
  hip : ℚ
  inseam : ℚ
  torso_length : ℚ
  arm_length : ℚ
  body_shape : String
  undertone : String
  skin_tone : String
deriving DecidableEq, Repr

/-- Modelled from the spec: the external Color Analyzer collaborator,
an opaque map from (skin_tone, undertone) to an ordered list of color
names (the SkinToneAnalyzer module is outside the embedded source). -/
def ColorAnalyzer : Type := String → String → List String

/-- RecommendationEngine.recommend_colors: delegate to the external
Color Analyzer. -/
def recommend_colors (analyzer : ColorAnalyzer) (skin_tone : String)
    (undertone : String) : List String :=
  analyzer skin_tone undertone

/-- WIDTH_TO_CIRCUMFERENCE_FACTOR = 2.0 -/
def WIDTH_TO_CIRCUMFERENCE_FACTOR : ℚ := 2

/-- FIT_RECOMMENDATIONS, slim min_ratio = 1.4 -/
def FIT_SLIM_MIN : ℚ := 7 / 5

/-- FIT_RECOMMENDATIONS, regular min_ratio = 1.15 -/
def FIT_REGULAR_MIN : ℚ := 23 / 20

/-- SIZE_ORDER: the canonical size scale. -/
def SIZE_ORDER : List String := ["XS", "S", "M", "L", "XL", "XXL", "XXXL"]

/-- BODY_SHAPE_ADJUSTMENTS table, as an association list mirroring the
nested dict. -/
def BODY_SHAPE_ADJUSTMENTS : List (String × List (String × Int)) :=
  [("inverted_triangle",
      [("shirt", 1), ("jacket", 1), ("pants", -1), ("dress", 0), ("skirt", -1)]),
   ("triangle",
      [("shirt", -1), ("jacket", 0), ("pants", 1), ("dress", 0), ("skirt", 1)]),
   ("oval",
      [("shirt", 1), ("jacket", 1), ("pants", 1), ("dress", 1), ("skirt", 1)]),
   ("hourglass",
      [("shirt", 0), ("jacket", 0), ("pants", 0), ("dress", -1), ("skirt", 0)]),
   ("rectangle",
      [("shirt", 0), ("jacket", 0), ("pants", 0), ("dress", 0), ("skirt", 0)])]

/-- BODY_SHAPE_ADJUSTMENTS.get(body_shape, dict()).get(garment_type, 0) -/
def bodyShapeAdjustment (body_shape garment_type : String) : Int :=
  match BODY_SHAPE_ADJUSTMENTS.lookup body_shape with
  | some tbl => (tbl.lookup garment_type).getD 0
  | none => 0

/-- GARMENT_MEASUREMENTS restricted to the fit_focus entry, the only field
the embedded control flow reads. -/
def GARMENT_FIT_FOCUS : List (String × String) :=
  [("shirt", "chest"), ("pants", "waist"), ("dress", "waist"),
   ("jacket", "chest"), ("skirt", "waist")]

/-- GARMENT_MEASUREMENTS.get(garment_type, GARMENT_MEASUREMENTS of shirt)
followed by reading fit_focus; the shirt profile has fit_focus chest. -/
def garmentFitFocus (garment_type : String) : String :=
  (GARMENT_FIT_FOCUS.lookup garment_type).getD "chest"

/-- Ordering of size rows by chest_min, for order_by of chest_min. -/
def chestLe (a b : SizeRange) : Prop := a.chest_min ≤ b.chest_min

instance : DecidableRel chestLe := fun a b =>
  inferInstanceAs (Decidable (a.chest_min ≤ b.chest_min))

instance : IsTotal SizeRange chestLe := ⟨fun a b => le_total a.chest_min b.chest_min⟩

instance : IsTrans SizeRange chestLe := ⟨fun _ _ _ h h' => le_trans h h'⟩

/-- The body of RecommendationEngine.recommend_size over the already
converted circumference estimates.  The Python body also binds the
converted height and shoulder values but never reads them again, so they
are dropped.  The final for-loop over all_sizes returns the first row
whose chest interval contains chest and falls through to the default when
no row contains it. -/
def recommend_size_on (sizes : List SizeRange) (chest waist : ℚ) : String :=
  match sizes.find? (fun s => decide (s.chest_min ≤ chest ∧ chest ≤ s.chest_max ∧
      s.waist_min ≤ waist ∧ waist ≤ s.waist_max)) with
  | some s => s.name
  | none =>
    match List.insertionSort chestLe sizes with
    | [] => "M"
    | first :: rest =>
      let last := rest.getLastD first
      if chest < first.chest_min then first.name
      else if last.chest_max < chest then last.name
      else
        match (first :: rest).find?
            (fun s => decide (s.chest_min ≤ chest ∧ chest ≤ s.chest_max)) with
        | some s => s.name
        | none => "M"

/-- RecommendationEngine.recommend_size: convert the chest and waist
widths to circumference estimates and match them against the catalog. -/
def recommend_size (sizes : List SizeRange) (m : Measurements) : String :=
  recommend_size_on sizes (m.get "chest" * WIDTH_TO_CIRCUMFERENCE_FACTOR)
    (m.get "waist" * WIDTH_TO_CIRCUMFERENCE_FACTOR)

/-- RecommendationEngine.recommend_fit. -/
def recommend_fit (m : Measurements) : String :=
  let chest := m.get "chest"
  let waist := m.get "waist"
  if waist = 0 then "regular"
  else
    let r := chest / waist
    if FIT_SLIM_MIN ≤ r then "slim"
    else if FIT_REGULAR_MIN ≤ r then "regular"
    else "oversize"

/-- Python str.upper, as the per-character ASCII case map over the
character list of the string. -/
def strUpper (s : String) : String := ⟨s.data.map Char.toUpper⟩

/-- RecommendationEngine.apply_body_shape_adjustment.  The Python
list.index call inside try/except ValueError is embedded as a membership
test guarding List.indexOf (both return the first matching position);
indexing SIZE_ORDER at the clamped index is embedded with getD, the clamp
keeping it in range. -/
def apply_body_shape_adjustment (base_size body_shape garment_type : String) : String :=
  let adjustment := bodyShapeAdjustment body_shape garment_type
  if adjustment = 0 then base_size
  else if strUpper base_size ∈ SIZE_ORDER then
    let current_index := SIZE_ORDER.indexOf (strUpper base_size)
    let new_index : Int := (current_index : Int) + adjustment
    let new_index : Int := max 0 (min new_index ((SIZE_ORDER.length : Int) - 1))
    SIZE_ORDER.getD new_index.toNat ""
  else base_size

/-- RecommendationEngine.recommend_size_for_garment. -/
def recommend_size_for_garment (sizes : List SizeRange) (m : Measurements)
    (garment_type body_shape : String) : String :=
  let fit_focus := garmentFitFocus garment_type
  let focus_value := m.get fit_focus * WIDTH_TO_CIRCUMFERENCE_FACTOR
  let matching :=
    if fit_focus = "chest" then
      sizes.find? (fun s => decide (s.chest_min ≤ focus_value ∧ focus_value ≤ s.chest_max))
    else if fit_focus = "waist" then
      sizes.find? (fun s => decide (s.waist_min ≤ focus_value ∧ focus_value ≤ s.waist_max))
    else
      sizes.find? (fun s => decide (s.chest_min ≤ focus_value ∧ focus_value ≤ s.chest_max))
  let base_size :=
    match matching with
    | some s => s.name
    | none => recommend_size sizes m
  apply_body_shape_adjustment base_size body_shape garment_type

/-- The variants of a product with positive stock:
ProductVariant.objects.filter(product=product, inventory__quantity__gt=0). -/
def availableVariants (variants : List ProductVariant) (p : Product) : List ProductVariant :=
  variants.filter (fun v => decide (v.product_id = p.id ∧ 0 < v.quantity))

/-- The priority accumulation of recommend_products for one product with a
nonempty available-variant list: start at 0, +15 on fit match, +10 when the
recommended size is among the available variants, +10 when some available
variant carries a recommended color, +5 base.  A variant matches a
recommended color exactly when its color name is among the recommended
names (every variant references an existing Color row). -/
def productScore (p : Product) (avail : List ProductVariant)
    (recommended_size recommended_fit : String)
    (recommended_color_names : List String) : Nat :=
  (if p.fit_type = recommended_fit then 15 else 0) +
  (if avail.any (fun v => decide (v.size_name = recommended_size)) then 10 else 0) +
  (if avail.any (fun v => decide (v.color_name ∈ recommended_color_names)) then 10 else 0) +
  5

/-- Product.objects.filter(Q(gender=gender) | Q(gender=unisex)). -/
def eligibleProducts (products : List Product) (gender : String) : List Product :=
  products.filter (fun p => decide (p.gender = gender ∨ p.gender = "unisex"))

/-- Ordering of scored products by descending priority, for
list.sort(key of priority, reverse=True); a stable sort. -/
def scoreGe (a b : Product × Nat) : Prop := b.2 ≤ a.2

instance : DecidableRel scoreGe := fun a b =>
  inferInstanceAs (Decidable (b.2 ≤ a.2))

instance : IsTotal (Product × Nat) scoreGe := ⟨fun a b => le_total b.2 a.2⟩

instance : IsTrans (Product × Nat) scoreGe := ⟨fun _ _ _ h h' => le_trans h' h⟩

/-- RecommendationEngine.recommend_products. -/
def recommend_products (cat : Catalog) (analyzer : ColorAnalyzer)
    (m : Measurements) (skin_tone : String) (gender : String) (limit : Nat) :
    List (Product × Nat) :=
  let recommended_size := recommend_size cat.sizes m
  let recommended_fit := recommend_fit m
  let recommended_color_names := recommend_colors analyzer skin_tone "warm"
  let products := eligibleProducts cat.products gender
  let recommendations := products.filterMap (fun p =>
    let avail := availableVariants cat.variants p
    if avail.isEmpty then none
    else some (p, productScore p avail recommended_size recommended_fit
        recommended_color_names))
  (List.insertionSort scoreGe recommendations).take limit

/-- The measurements dict built from a body scan (see the BodyScan note on
truthiness of the optional fields). -/
def scanMeasurements (b : BodyScan) : Measurements :=
  ⟨b.height, b.chest, b.waist, b.shoulder_width, b.hip, b.inseam,
   b.torso_length, b.arm_length⟩

/-- getattr(body_scan, body_shape attribute, rectangle) or rectangle: a
falsy (empty) stored shape falls back to rectangle. -/
def scanBodyShape (b : BodyScan) : String :=
  if b.body_shape = "" then "rectangle" else b.body_shape

/-- A match record of get_matching_product_variants. -/
structure MatchResult where
  product : Product
  variant : ProductVariant
  recommended_size : String
  recommended_color : String
  color_hex : String
  fit_type : String
  is_perfect_match : Bool
  fit_matches_recommendation : Bool
  recommended_fit : String
  fit_message : String
deriving DecidableEq, Repr

/-- Tier 1 filter of get_matching_product_variants: this product, the
adjusted size, a recommended color, positive stock. -/
def tier1Pred (p : Product) (rec_size : String)
    (recommended_color_names : List String) (v : ProductVariant) : Bool :=
  decide (v.product_id = p.id ∧ v.size_name = rec_size ∧
    v.color_name ∈ recommended_color_names ∧ 0 < v.quantity)

/-- Tier 2 filter of get_matching_product_variants: this product, the
adjusted size, any color, positive stock. -/
def tier2Pred (p : Product) (rec_size : String) (v : ProductVariant) : Bool :=
  decide (v.product_id = p.id ∧ v.size_name = rec_size ∧ 0 < v.quantity)

/-- The per-product body of the loop in get_matching_product_variants. -/
def matchForProduct (cat : Catalog) (recommended_color_names : List String)
    (recommended_fit : String) (m : Measurements) (body_shape : String)
    (p : Product) : Option MatchResult :=
  let rec_size := recommend_size_for_garment cat.sizes m p.category body_shape
  let fit_matches := decide (p.fit_type = recommended_fit)
  match cat.variants.find? (tier1Pred p rec_size recommended_color_names) with
  | some v =>
    some ⟨p, v, rec_size, v.color_name, v.color_hex, p.fit_type, true, fit_matches,
      recommended_fit,
      "This " ++ p.category ++ " in size " ++ rec_size ++ " with " ++
        v.color_name ++ " will fit you perfectly!"⟩
  | none =>
    match cat.variants.find? (tier2Pred p rec_size) with
    | some v =>
      some ⟨p, v, rec_size, v.color_name, v.color_hex, p.fit_type, false, fit_matches,
        recommended_fit,
        "This " ++ p.category ++ " in size " ++ rec_size ++ " will fit you great!"⟩
    | none => none

/-- The product pool of get_matching_product_variants after the optional
gender and fit filters. -/
def matcherPool (products : List Product) (gender : Option String)
    (fit_type : Option String) : List Product :=
  let pool := match gender with
    | some g =>
      if g = "men" ∨ g = "women" then
        products.filter (fun p => decide (p.gender = g ∨ p.gender = "unisex"))
      else products
    | none => products
  match fit_type with
  | some ft =>
    if ft = "slim" ∨ ft = "regular" ∨ ft = "oversize" then
      pool.filter (fun p => decide (p.fit_type = ft))
    else pool
  | none => pool

/-- The matching_products list collected by the loop of
get_matching_product_variants, before ranking. -/
def collectedMatches (cat : Catalog) (analyzer : ColorAnalyzer) (b : BodyScan)
    (gender : Option String) (fit_type : Option String) : List MatchResult :=
  let m := scanMeasurements b
  let body_shape := scanBodyShape b
  let recommended_color_names := recommend_colors analyzer b.skin_tone b.undertone
  let recommended_fit := recommend_fit m
  (matcherPool cat.products gender fit_type).filterMap
    (matchForProduct cat recommended_color_names recommended_fit m body_shape)

/-- Python string comparison: strict lexicographic order on the character
code points (the order Python uses when sort keys compare product
names). -/
def pyStrLt : List Char → List Char → Prop
  | [], [] => False
  | [], _ :: _ => True
  | _ :: _, [] => False
  | a :: as, b :: bs => a < b ∨ (a = b ∧ pyStrLt as bs)

instance pyStrLt.dec : (l1 l2 : List Char) → Decidable (pyStrLt l1 l2)
  | [], [] => isFalse (fun h => h)
  | [], _ :: _ => isTrue trivial
  | _ :: _, [] => isFalse (fun h => h)
  | a :: as, b :: bs =>
    haveI := pyStrLt.dec as bs
    inferInstanceAs (Decidable (a < b ∨ (a = b ∧ pyStrLt as bs)))

/-- The non-strict Python string order. -/
def strLe (s t : String) : Prop := ¬ pyStrLt t.data s.data

instance : (s t : String) → Decidable (strLe s t) := fun s t =>
  inferInstanceAs (Decidable (¬ pyStrLt t.data s.data))

/-- Ordering of match records by the composite key
(not fit_matches_recommendation, not is_perfect_match, product name),
ascending and lexicographic with False before True, for the stable
list.sort of get_matching_product_variants. -/
def matchLe (a b : MatchResult) : Prop :=
  (!a.fit_matches_recommendation) < (!b.fit_matches_recommendation) ∨
  ((!a.fit_matches_recommendation) = (!b.fit_matches_recommendation) ∧
    ((!a.is_perfect_match) < (!b.is_perfect_match) ∨
     ((!a.is_perfect_match) = (!b.is_perfect_match) ∧
       strLe a.product.name b.product.name)))

instance : DecidableRel matchLe := fun a b =>
  inferInstanceAs (Decidable
    ((!a.fit_matches_recommendation) < (!b.fit_matches_recommendation) ∨
     ((!a.fit_matches_recommendation) = (!b.fit_matches_recommendation) ∧
       ((!a.is_perfect_match) < (!b.is_perfect_match) ∨
        ((!a.is_perfect_match) = (!b.is_perfect_match) ∧
          strLe a.product.name b.product.name)))))

/-- RecommendationEngine.get_matching_product_variants. -/
def get_matching_product_variants (cat : Catalog) (analyzer : ColorAnalyzer)
    (b : BodyScan) (gender : Option String) (fit_type : Option String)
    (limit : Nat) : List MatchResult :=
  (List.insertionSort matchLe (collectedMatches cat analyzer b gender fit_type)).take limit

/-- A Recommendation record as constructed by
generate_recommendations_for_scan (the body_scan reference is implicit). -/
structure Recommendation where
  product : Product
  recommended_size : String
  recommended_fit : String
  recommended_colors : String
  priority : Nat
deriving DecidableEq, Repr

/-- The duplicate-removal loop of generate_recommendations_for_scan:
first pair for each product id wins, later pairs with a seen id drop. -/
def dedupFirst : List (Product × Nat) → List Nat → List (Product × Nat)
  | [], _ => []
  | (p, s) :: rest, seen =>
    if p.id ∈ seen then dedupFirst rest seen
    else (p, s) :: dedupFirst rest (p.id :: seen)

/-- The concatenated product_recommendations list of
generate_recommendations_for_scan: one recommend_products pass per gender
in the fixed order men, women, unisex, each with limit 10. -/
def scanConcatRecs (cat : Catalog) (analyzer : ColorAnalyzer) (b : BodyScan) :
    List (Product × Nat) :=
  recommend_products cat analyzer (scanMeasurements b) b.skin_tone "men" 10 ++
  recommend_products cat analyzer (scanMeasurements b) b.skin_tone "women" 10 ++
  recommend_products cat analyzer (scanMeasurements b) b.skin_tone "unisex" 10

/-- unique_recommendations of generate_recommendations_for_scan. -/
def uniqueRecs (cat : Catalog) (analyzer : ColorAnalyzer) (b : BodyScan) :
    List (Product × Nat) :=
  dedupFirst (scanConcatRecs cat analyzer b) []

/-- unique_recommendations after the stable descending sort by priority. -/
def sortedUniqueRecs (cat : Catalog) (analyzer : ColorAnalyzer) (b : BodyScan) :
    List (Product × Nat) :=
  List.insertionSort scoreGe (uniqueRecs cat analyzer b)

/-- RecommendationEngine.generate_recommendations_for_scan, returning the
constructed Recommendation records (persistence is external).  The Python
body also binds base_recommended_size and never reads it again, so it is
dropped. -/
def generate_recommendations_for_scan (cat : Catalog) (analyzer : ColorAnalyzer)
    (b : BodyScan) : List Recommendation :=
  let m := scanMeasurements b
  let body_shape := scanBodyShape b
  let recommended_fit := recommend_fit m
  let recommended_colors := recommend_colors analyzer b.skin_tone b.undertone
  ((sortedUniqueRecs cat analyzer b).take 10).map (fun pr =>
    ⟨pr.1,
     recommend_size_for_garment cat.sizes m pr.1.category body_shape,
     recommended_fit,
     String.intercalate ", " (recommended_colors.take 5),
     pr.2⟩)

/-- The fit tier order oversize < regular < slim, as a numeric rank. -/
def fitTier (fit : String) : Nat :=
  if fit = "slim" then 2 else if fit = "regular" then 1 else 0

/-- The gap catalog: two ranges whose chest intervals leave a gap. -/
def gapSizes : List SizeRange := [⟨"S", 80, 90, 0, 200⟩, ⟨"L", 100, 110, 0, 200⟩]

/-- Measurements whose converted chest estimate lands inside the gap. -/
def gapM : Measurements := ⟨0, 47, 10, 0, 0, 0, 0, 0⟩

/-- Fixture: a men product for concrete witnesses. -/
def wp1 : Product := ⟨1, "alpha shirt", "shirt", "men", "regular"⟩

/-- Fixture: a second men product with the same score as the first. -/
def wp2 : Product := ⟨2, "beta shirt", "shirt", "men", "regular"⟩

/-- Fixture: a unisex product scored by several gender passes. -/
def wp3 : Product := ⟨3, "gamma tee", "shirt", "unisex", "slim"⟩

/-- Fixture catalog: empty size chart, three products, one in-stock
variant each. -/
def wCat : Catalog :=
  ⟨[], [wp1, wp2, wp3],
   [⟨1, "S", "black", "#000000", 1⟩, ⟨2, "S", "black", "#000000", 1⟩,
    ⟨3, "S", "black", "#000000", 1⟩]⟩

/-- Fixture color analyzer recommending no colors. -/
def wAnalyzer : ColorAnalyzer := fun _ _ => []

/-- Fixture body scan with zero measurements. -/
def wScan : BodyScan := ⟨0, 0, 0, 0, 0, 0, 0, 0, "", "warm", "tan"⟩

/-- Fixture: a product whose only variant is out of stock. -/
def wp0 : Product := ⟨9, "omega shirt", "shirt", "men", "regular"⟩

/-- Fixture catalog for the exclusion case: one product, one zero-stock
variant. -/
def w0Cat : Catalog := ⟨[], [wp0], [⟨9, "S", "black", "#000000", 0⟩]⟩

/-- Fixture catalog for a tier-1 perfect match. -/
def wVarCat : Catalog := ⟨[], [wp1], [⟨1, "M", "black", "#000000", 2⟩]⟩

/-- Fixture catalog with two men products in the recommended size. -/
def wMCat : Catalog :=
  ⟨[], [wp1, wp2],
   [⟨1, "M", "black", "#000000", 1⟩, ⟨2, "M", "black", "#000000", 1⟩]⟩

/-- Fixture match record emitted for the first men product. -/
def wmr1 : MatchResult :=
  ⟨wp1, ⟨1, "M", "black", "#000000", 1⟩, "M", "black", "#000000", "regular",
   false, true, "regular", "This shirt in size M will fit you great!"⟩

/-- Fixture match record emitted for the second men product. -/
def wmr2 : MatchResult :=
  ⟨wp2, ⟨2, "M", "black", "#000000", 1⟩, "M", "black", "#000000", "regular",
   false, true, "regular", "This shirt in size M will fit you great!"⟩

/-- Counterexample catalog for C9: ten men products and ten women products
outscore the single unisex product in every pass they share with it. -/
def cexCat : Catalog :=
  ⟨[],
   ((List.range 10).map (fun i =>
      (⟨i, "m", "shirt", "men", "regular"⟩ : Product))) ++
   ((List.range 10).map (fun i =>
      (⟨10 + i, "w", "shirt", "women", "regular"⟩ : Product))) ++
   [(⟨20, "u", "shirt", "unisex", "slim"⟩ : Product)],
   (List.range 21).map (fun i =>
     (⟨i, "S", "black", "#000000", 1⟩ : ProductVariant))⟩

@[simp] theorem Measurements.get_height (m : Measurements) : m.get "height" = m.height := rfl

@[simp] theorem Measurements.get_chest (m : Measurements) : m.get "chest" = m.chest := rfl

@[simp] theorem Measurements.get_waist (m : Measurements) : m.get "waist" = m.waist := rfl

theorem pyStrLt_trans (l1 : List Char) : ∀ (l2 l3 : List Char),
    pyStrLt l1 l2 → pyStrLt l2 l3 → pyStrLt l1 l3 := by
  induction l1 with
  | nil =>
    intro l2 l3 h12 h23
    cases l2 with
    | nil => exact absurd h12 (fun h => h)
    | cons b bs =>
      cases l3 with
      | nil => exact absurd h23 (fun h => h)
      | cons c cs => exact trivial
  | cons a as ih =>
    intro l2 l3 h12 h23
    cases l2 with
    | nil => exact absurd h12 (fun h => h)
    | cons b bs =>
      cases l3 with
      | nil => exact absurd h23 (fun h => h)
      | cons c cs =>
        rcases h12 with hab | ⟨hab, h12r⟩
        · rcases h23 with hbc | ⟨hbc, h23r⟩
          · exact Or.inl (lt_trans hab hbc)
          · exact Or.inl (hbc ▸ hab)
        · rcases h23 with hbc | ⟨hbc, h23r⟩
          · exact Or.inl (hab ▸ hbc)
          · exact Or.inr ⟨hab.trans hbc, ih bs cs h12r h23r⟩

theorem pyStrLt_irrefl (l : List Char) : ¬ pyStrLt l l := by
  induction l with
  | nil => exact fun h => h
  | cons a as ih =>
    intro h
    rcases h with h | ⟨-, h⟩
    · exact lt_irrefl a h
    · exact ih h

theorem pyStrLt_asymm {l1 l2 : List Char} (h : pyStrLt l1 l2) :
    ¬ pyStrLt l2 l1 :=
  fun h2 => pyStrLt_irrefl l1 (pyStrLt_trans l1 l2 l1 h h2)

theorem pyStrLt_trichotomy (l1 : List Char) : ∀ l2 : List Char,
    pyStrLt l1 l2 ∨ l1 = l2 ∨ pyStrLt l2 l1 := by
  induction l1 with
  | nil =>
    intro l2
    cases l2 with
    | nil => exact Or.inr (Or.inl rfl)
    | cons b bs => exact Or.inl trivial
  | cons a as ih =>
    intro l2
    cases l2 with
    | nil => exact Or.inr (Or.inr trivial)
    | cons b bs =>
      rcases lt_trichotomy a b with hab | hab | hab
      · exact Or.inl (Or.inl hab)
      · subst hab
        rcases ih bs with h | h | h
        · exact Or.inl (Or.inr ⟨rfl, h⟩)
        · subst h
          exact Or.inr (Or.inl rfl)
        · exact Or.inr (Or.inr (Or.inr ⟨rfl, h⟩))
      · exact Or.inr (Or.inr (Or.inl hab))

theorem strLe_total (s t : String) : strLe s t ∨ strLe t s := by
  by_cases h : pyStrLt t.data s.data
  · exact Or.inr (pyStrLt_asymm h)
  · exact Or.inl h

theorem strLe_trans {s t u : String} (h1 : strLe s t) (h2 : strLe t u) :
    strLe s u := by
  intro hlt
  rcases pyStrLt_trichotomy u.data t.data with h | h | h
  · exact h2 h
  · exact h1 (h ▸ hlt)
  · exact h1 (pyStrLt_trans _ _ _ h hlt)

instance : IsTotal MatchResult matchLe := by
  constructor
  intro a b
  unfold matchLe
  rcases lt_trichotomy (!a.fit_matches_recommendation) (!b.fit_matches_recommendation)
    with h1 | h1 | h1
  · exact Or.inl (Or.inl h1)
  · rcases lt_trichotomy (!a.is_perfect_match) (!b.is_perfect_match) with h2 | h2 | h2
    · exact Or.inl (Or.inr ⟨h1, Or.inl h2⟩)
    · rcases strLe_total a.product.name b.product.name with h3 | h3
      · exact Or.inl (Or.inr ⟨h1, Or.inr ⟨h2, h3⟩⟩)
      · exact Or.inr (Or.inr ⟨h1.symm, Or.inr ⟨h2.symm, h3⟩⟩)
    · exact Or.inr (Or.inr ⟨h1.symm, Or.inl h2⟩)
  · exact Or.inr (Or.inl h1)

instance : IsTrans MatchResult matchLe := by
  constructor
  intro a b c hab hbc
  unfold matchLe at *
  rcases hab with h1 | ⟨h1, h2⟩
  · rcases hbc with h1' | ⟨h1', _⟩
    · exact Or.inl (lt_trans h1 h1')
    · exact Or.inl (h1' ▸ h1)
  · rcases hbc with h1' | ⟨h1', h2'⟩
    · exact Or.inl (h1 ▸ h1')
    · refine Or.inr ⟨h1.trans h1', ?_⟩
      rcases h2 with h2 | ⟨h2, h3⟩
      · rcases h2' with h2' | ⟨h2', _⟩
        · exact Or.inl (lt_trans h2 h2')
        · exact Or.inl (h2' ▸ h2)
      · rcases h2' with h2' | ⟨h2', h3'⟩
        · exact Or.inl (h2 ▸ h2')
        · exact Or.inr ⟨h2.trans h2', strLe_trans h3 h3'⟩

/-- Uppercasing fixes every label of the canonical scale. -/
theorem strUpper_mem_SIZE_ORDER : ∀ s ∈ SIZE_ORDER, strUpper s = s := by decide

/-- Reading the canonical scale below its length stays on the scale. -/
theorem SIZE_ORDER_getD_mem : ∀ n : Nat, n < 7 → SIZE_ORDER.getD n "" ∈ SIZE_ORDER := by
  decide

/-- With a nonzero adjustment step and an uppercased base on the canonical
scale, the adjusted size is read off the canonical scale at a clamped,
in-range index. -/
theorem apply_body_shape_nonzero_mem (base body_shape garment : String)
    (hne : bodyShapeAdjustment body_shape garment ≠ 0)
    (h : strUpper base ∈ SIZE_ORDER) :
    apply_body_shape_adjustment base body_shape garment ∈ SIZE_ORDER := by
  unfold apply_body_shape_adjustment
  rw [if_neg hne, if_pos h]
  apply SIZE_ORDER_getD_mem
  have hlen : (SIZE_ORDER.length : Int) = 7 := by decide
  rw [hlen]
  omega

/-- C6: recommend_fit returns regular when the waist value is 0; otherwise,
with ratio chest/waist, it returns slim when the ratio is at least the slim
minimum threshold, regular when the ratio is at least the regular minimum
but below the slim minimum, and oversize otherwise. -/
theorem recommend_fit_bands (m : Measurements) :
    (m.get "waist" = 0 → recommend_fit m = "regular") ∧
    (m.get "waist" ≠ 0 →
      (FIT_SLIM_MIN ≤ m.get "chest" / m.get "waist" → recommend_fit m = "slim") ∧
      (FIT_REGULAR_MIN ≤ m.get "chest" / m.get "waist" →
        m.get "chest" / m.get "waist" < FIT_SLIM_MIN → recommend_fit m = "regular") ∧
      (m.get "chest" / m.get "waist" < FIT_REGULAR_MIN →
        recommend_fit m = "oversize")) := by
  simp only [Measurements.get_chest, Measurements.get_waist]
  constructor
  · intro h
    simp [recommend_fit, h]
  · intro h
    refine ⟨fun h1 => ?_, fun h1 h2 => ?_, fun h1 => ?_⟩
    · simp [recommend_fit, h, h1]
    · simp [recommend_fit, h, h2.not_le, h1]
    · have h2 : m.chest / m.waist < FIT_SLIM_MIN :=
        lt_of_lt_of_le h1 (by norm_num [FIT_REGULAR_MIN, FIT_SLIM_MIN])
      simp [recommend_fit, h, h1.not_le, h2.not_le]

/-- Witness for C6 at waist 0, at ratio 7/5, at ratio 6/5 and at ratio 1. -/
theorem recommend_fit_bands_witness :
    recommend_fit ⟨0, 5, 0, 0, 0, 0, 0, 0⟩ = "regular" ∧
    recommend_fit ⟨0, 7, 5, 0, 0, 0, 0, 0⟩ = "slim" ∧
    recommend_fit ⟨0, 6, 5, 0, 0, 0, 0, 0⟩ = "regular" ∧
    recommend_fit ⟨0, 5, 5, 0, 0, 0, 0, 0⟩ = "oversize" := by
  refine ⟨(recommend_fit_bands _).1 rfl, ?_, ?_, ?_⟩
  · exact ((recommend_fit_bands _).2 (by simp)).1
      (by simp only [Measurements.get_chest, Measurements.get_waist]
          norm_num [FIT_SLIM_MIN])
  · exact ((recommend_fit_bands _).2 (by simp)).2.1
      (by simp only [Measurements.get_chest, Measurements.get_waist]
          norm_num [FIT_REGULAR_MIN])
      (by simp only [Measurements.get_chest, Measurements.get_waist]
          norm_num [FIT_SLIM_MIN])
  · exact ((recommend_fit_bands _).2 (by simp)).2.2
      (by simp only [Measurements.get_chest, Measurements.get_waist]
          norm_num [FIT_REGULAR_MIN])

/-- C7: with a fixed positive waist, recommend_fit is monotone in chest
under the tier order oversize < regular < slim; and whenever the
chest-to-waist ratio is at least the slim minimum, slim is returned. -/
theorem recommend_fit_monotone (m1 m2 : Measurements)
    (hw : m1.waist = m2.waist) (hpos : 0 < m2.waist) (hc : m1.chest ≤ m2.chest) :
    fitTier (recommend_fit m1) ≤ fitTier (recommend_fit m2) ∧
    (∀ m : Measurements, 0 < m.waist → FIT_SLIM_MIN ≤ m.chest / m.waist →
      recommend_fit m = "slim") := by
  constructor
  · have hw1 : m1.waist ≠ 0 := by rw [hw]; exact hpos.ne'
    have hr : m1.chest / m1.waist ≤ m2.chest / m2.waist := by
      rw [hw]
      exact (div_le_div_iff_of_pos_right hpos).mpr hc
    simp only [recommend_fit, Measurements.get_chest, Measurements.get_waist]
    rw [if_neg hw1, if_neg hpos.ne']
    rcases le_or_lt FIT_SLIM_MIN (m1.chest / m1.waist) with h1 | h1
    · rw [if_pos h1, if_pos (le_trans h1 hr)]
    · rw [if_neg h1.not_le]
      rcases le_or_lt FIT_REGULAR_MIN (m1.chest / m1.waist) with h2 | h2
      · rw [if_pos h2]
        rcases le_or_lt FIT_SLIM_MIN (m2.chest / m2.waist) with h3 | h3
        · rw [if_pos h3]; decide
        · rw [if_neg h3.not_le, if_pos (le_trans h2 hr)]
      · rw [if_neg h2.not_le]
        rcases le_or_lt FIT_SLIM_MIN (m2.chest / m2.waist) with h3 | h3
        · rw [if_pos h3]; decide
        · rw [if_neg h3.not_le]
          rcases le_or_lt FIT_REGULAR_MIN (m2.chest / m2.waist) with h4 | h4
          · rw [if_pos h4]; decide
          · rw [if_neg h4.not_le]
  · intro m hmw hs
    simp [recommend_fit, hmw.ne', hs]

/-- Witness for C7 at chest 6 against chest 7 over waist 5. -/
theorem recommend_fit_monotone_witness :
    fitTier (recommend_fit ⟨0, 6, 5, 0, 0, 0, 0, 0⟩) ≤
      fitTier (recommend_fit ⟨0, 7, 5, 0, 0, 0, 0, 0⟩) ∧
    recommend_fit ⟨0, 7, 5, 0, 0, 0, 0, 0⟩ = "slim" := by
  have h := recommend_fit_monotone ⟨0, 6, 5, 0, 0, 0, 0, 0⟩ ⟨0, 7, 5, 0, 0, 0, 0, 0⟩
      rfl (by norm_num) (by norm_num)
  exact ⟨h.1, h.2 ⟨0, 7, 5, 0, 0, 0, 0, 0⟩ (by norm_num)
    (by norm_num [FIT_SLIM_MIN])⟩

/-- C8: on a base size from the canonical scale the adjusted size is again
a member of the canonical scale for every body shape and garment type, the
computed index being clamped into range before indexing; in particular M
with the triangle pants step of one yields L, and XXXL with step one stays
XXXL. -/
theorem apply_body_shape_adjustment_safe (base body_shape garment : String)
    (hb : base ∈ SIZE_ORDER) :
    apply_body_shape_adjustment base body_shape garment ∈ SIZE_ORDER ∧
    apply_body_shape_adjustment "M" "triangle" "pants" = "L" ∧
    apply_body_shape_adjustment "XXXL" "triangle" "pants" = "XXXL" := by
  refine ⟨?_, by decide, by decide⟩
  by_cases hz : bodyShapeAdjustment body_shape garment = 0
  · unfold apply_body_shape_adjustment
    rw [if_pos hz]
    exact hb
  · refine apply_body_shape_nonzero_mem base body_shape garment hz ?_
    rw [strUpper_mem_SIZE_ORDER base hb]
    exact hb

/-- Witness for C8 at base M, shape triangle, garment pants. -/
theorem apply_body_shape_adjustment_safe_witness :
    apply_body_shape_adjustment "M" "triangle" "pants" ∈ SIZE_ORDER ∧
    apply_body_shape_adjustment "M" "triangle" "pants" = "L" ∧
    apply_body_shape_adjustment "XXXL" "triangle" "pants" = "XXXL" :=
  apply_body_shape_adjustment_safe "M" "triangle" "pants" (by decide)

/-- C10: with a zero adjustment step the input size string is returned
unchanged, case preserved; with a nonzero step and an uppercasing on the
canonical scale, the result is an uppercase canonical label; in particular
lowercase m with the triangle pants step yields L. -/
theorem apply_body_shape_adjustment_case (base body_shape garment : String) :
    (bodyShapeAdjustment body_shape garment = 0 →
      apply_body_shape_adjustment base body_shape garment = base) ∧
    (bodyShapeAdjustment body_shape garment ≠ 0 → strUpper base ∈ SIZE_ORDER →
      apply_body_shape_adjustment base body_shape garment ∈ SIZE_ORDER ∧
      strUpper (apply_body_shape_adjustment base body_shape garment) =
        apply_body_shape_adjustment base body_shape garment) ∧
    apply_body_shape_adjustment "m" "triangle" "pants" = "L" := by
  refine ⟨fun hz => ?_, fun hne h => ?_, by decide⟩
  · unfold apply_body_shape_adjustment
    rw [if_pos hz]
  · have hm := apply_body_shape_nonzero_mem base body_shape garment hne h
    exact ⟨hm, strUpper_mem_SIZE_ORDER _ hm⟩

/-- Witness for C10 at base m with shapes triangle and rectangle. -/
theorem apply_body_shape_adjustment_case_witness :
    apply_body_shape_adjustment "m" "rectangle" "pants" = "m" ∧
    apply_body_shape_adjustment "m" "triangle" "pants" ∈ SIZE_ORDER ∧
    apply_body_shape_adjustment "m" "triangle" "pants" = "L" := by
  refine ⟨(apply_body_shape_adjustment_case "m" "rectangle" "pants").1 (by decide),
    ((apply_body_shape_adjustment_case "m" "triangle" "pants").2.1 (by decide)
      (by decide)).1,
    (apply_body_shape_adjustment_case "m" "triangle" "pants").2.2⟩

/-- On a non-empty catalog the generic size match body returns the name of
some catalog range, except the default M, which it returns exactly when no
range contains the chest value. -/
theorem recommend_size_on_names (sizes : List SizeRange) (chest waist : ℚ)
    (h : sizes ≠ []) :
    (∃ s ∈ sizes, recommend_size_on sizes chest waist = s.name) ∨
    (recommend_size_on sizes chest waist = "M" ∧
      ∀ s ∈ sizes, ¬ (s.chest_min ≤ chest ∧ chest ≤ s.chest_max)) := by
  unfold recommend_size_on
  cases hf : sizes.find? (fun s => decide (s.chest_min ≤ chest ∧ chest ≤ s.chest_max ∧
      s.waist_min ≤ waist ∧ waist ≤ s.waist_max)) with
  | some s =>
    exact Or.inl ⟨s, List.mem_of_find?_eq_some hf, rfl⟩
  | none =>
    have hperm := List.perm_insertionSort chestLe sizes
    cases hs : List.insertionSort chestLe sizes with
    | nil =>
      rw [hs] at hperm
      exact absurd hperm.symm.eq_nil h
    | cons first rest =>
      rw [hs] at hperm
      simp only []
      by_cases h1 : chest < first.chest_min
      · rw [if_pos h1]
        exact Or.inl ⟨first, hperm.mem_iff.mp (List.mem_cons_self _ _), rfl⟩
      · rw [if_neg h1]
        by_cases h2 : (rest.getLastD first).chest_max < chest
        · rw [if_pos h2]
          exact Or.inl ⟨rest.getLastD first,
            hperm.mem_iff.mp (List.getLastD_mem_cons rest first), rfl⟩
        · rw [if_neg h2]
          cases hf2 : (first :: rest).find?
              (fun s => decide (s.chest_min ≤ chest ∧ chest ≤ s.chest_max)) with
          | some s =>
            exact Or.inl ⟨s, hperm.mem_iff.mp (List.mem_of_find?_eq_some hf2), rfl⟩
          | none =>
            refine Or.inr ⟨rfl, fun s hsmem hcont => ?_⟩
            have hnone := List.find?_eq_none.mp hf2 s (hperm.mem_iff.mpr hsmem)
            simp only [decide_eq_true_eq] at hnone
            exact hnone ⟨hcont.1, hcont.2⟩

/-- C1 (amended): for every non-empty size catalog, the generic size match
returns either the name of some range in the catalog, or the hardcoded
default M, the latter only when no range's chest interval contains the
converted chest value (the gap fallthrough); an empty catalog always
yields the default. -/
theorem recommend_size_names (sizes : List SizeRange) (m : Measurements)
    (h : sizes ≠ []) :
    (∃ s ∈ sizes, recommend_size sizes m = s.name) ∨
    (recommend_size sizes m = "M" ∧
      ∀ s ∈ sizes,
        ¬ (s.chest_min ≤ m.get "chest" * WIDTH_TO_CIRCUMFERENCE_FACTOR ∧
           m.get "chest" * WIDTH_TO_CIRCUMFERENCE_FACTOR ≤ s.chest_max)) :=
  recommend_size_on_names sizes _ _ h

/-- The generic size match on the gap catalog falls through to the
default. -/
theorem recommend_size_gap_eval : recommend_size gapSizes gapM = "M" := by
  have h1 : gapM.get "chest" * WIDTH_TO_CIRCUMFERENCE_FACTOR = 94 := by
    simp only [Measurements.get_chest]
    norm_num [gapM, WIDTH_TO_CIRCUMFERENCE_FACTOR]
  have h2 : gapM.get "waist" * WIDTH_TO_CIRCUMFERENCE_FACTOR = 20 := by
    simp only [Measurements.get_waist]
    norm_num [gapM, WIDTH_TO_CIRCUMFERENCE_FACTOR]
  unfold recommend_size
  rw [h1, h2]
  decide

/-- C1 counterexample: a non-empty two-range catalog with a chest gap on
which recommend_size returns the default M even though M is not the name
of any range in the catalog. -/
theorem recommend_size_names_counterexample :
    gapSizes ≠ [] ∧ recommend_size gapSizes gapM = "M" ∧
    ∀ s ∈ gapSizes, s.name ≠ "M" :=
  ⟨by decide, recommend_size_gap_eval, by decide⟩

/-- Witness for amended C1 at the gap catalog. -/
theorem recommend_size_names_witness :
    (∃ s ∈ gapSizes, recommend_size gapSizes gapM = s.name) ∨
    (recommend_size gapSizes gapM = "M" ∧
      ∀ s ∈ gapSizes,
        ¬ (s.chest_min ≤ gapM.get "chest" * WIDTH_TO_CIRCUMFERENCE_FACTOR ∧
           gapM.get "chest" * WIDTH_TO_CIRCUMFERENCE_FACTOR ≤ s.chest_max)) :=
  recommend_size_names gapSizes gapM (by decide)

/-- A product id already seen never reappears after duplicate removal. -/
theorem dedupFirst_countP_of_seen (l : List (Product × Nat)) :
    ∀ (seen : List Nat) (pid : Nat), pid ∈ seen →
    (dedupFirst l seen).countP (fun pr => pr.1.id = pid) = 0 := by
  induction l with
  | nil => intro seen pid _; rfl
  | cons hd tl ih =>
    intro seen pid hmem
    obtain ⟨p, s⟩ := hd
    unfold dedupFirst
    by_cases hp : p.id ∈ seen
    · rw [if_pos hp]
      exact ih seen pid hmem
    · rw [if_neg hp]
      have hne : ¬ p.id = pid := fun he => hp (he ▸ hmem)
      simp only [List.countP_cons, decide_eq_true_eq, hne, if_false]
      simpa using ih (p.id :: seen) pid (List.mem_cons_of_mem _ hmem)

/-- A product id occurring in the list and not yet seen appears exactly
once after duplicate removal. -/
theorem dedupFirst_countP_of_mem (l : List (Product × Nat)) :
    ∀ (seen : List Nat) (pid : Nat), pid ∉ seen →
    (∃ pr ∈ l, pr.1.id = pid) →
    (dedupFirst l seen).countP (fun pr => pr.1.id = pid) = 1 := by
  induction l with
  | nil =>
    intro seen pid _ hex
    simp at hex
  | cons hd tl ih =>
    intro seen pid hseen hex
    obtain ⟨p, s⟩ := hd
    unfold dedupFirst
    by_cases hp : p.id ∈ seen
    · rw [if_pos hp]
      have hne : ¬ p.id = pid := fun he => hseen (he ▸ hp)
      rcases hex with ⟨pr, hpr, hid⟩
      rcases List.mem_cons.mp hpr with he | hm
      · subst he
        exact absurd hid hne
      · exact ih seen pid hseen ⟨pr, hm, hid⟩
    · rw [if_neg hp]
      by_cases hid : p.id = pid
      · simp only [List.countP_cons, decide_eq_true_eq, hid, if_true]
        rw [dedupFirst_countP_of_seen tl (pid :: seen) pid (List.mem_cons_self _ _)]
      · simp only [List.countP_cons, decide_eq_true_eq, hid, if_false]
        have hseen2 : pid ∉ p.id :: seen := by
          intro hc
          rcases List.mem_cons.mp hc with he | hm
          · exact hid he.symm
          · exact hseen hm
        rcases hex with ⟨pr, hpr, hprid⟩
        rcases List.mem_cons.mp hpr with he | hm
        · subst he
          exact absurd hprid hid
        · simpa using ih (p.id :: seen) pid hseen2 ⟨pr, hm, hprid⟩

/-- Duplicate removal keeps the first pair carrying an unseen product
id. -/
theorem dedupFirst_find? (l : List (Product × Nat)) :
    ∀ (seen : List Nat) (pid : Nat), pid ∉ seen →
    (dedupFirst l seen).find? (fun pr => pr.1.id = pid) =
      l.find? (fun pr => pr.1.id = pid) := by
  induction l with
  | nil => intro seen pid _; rfl
  | cons hd tl ih =>
    intro seen pid hseen
    obtain ⟨p, s⟩ := hd
    unfold dedupFirst
    by_cases hp : p.id ∈ seen
    · rw [if_pos hp]
      have hne : ¬ p.id = pid := fun he => hseen (he ▸ hp)
      rw [List.find?_cons, ih seen pid hseen]
      simp [hne]
    · rw [if_neg hp]
      by_cases hid : p.id = pid
      · rw [List.find?_cons, List.find?_cons]
        simp [hid]
      · have hseen2 : pid ∉ p.id :: seen := by
          intro hc
          rcases List.mem_cons.mp hc with he | hm
          · exact hid he.symm
          · exact hseen hm
        rw [List.find?_cons, List.find?_cons, ih (p.id :: seen) pid hseen2]

/-- C2: every product id occurring in the concatenated per-gender scored
output appears exactly once after deduplication, paired with its first
encountered pair; the emitted records are sorted descending by priority;
score ties keep first-encounter order through the stable sort; and at most
ten records are emitted. -/
theorem generate_recommendations_dedup_sorted (cat : Catalog)
    (analyzer : ColorAnalyzer) (b : BodyScan) :
    (∀ pid : Nat,
      (∃ pr ∈ scanConcatRecs cat analyzer b, pr.1.id = pid) →
      (uniqueRecs cat analyzer b).countP (fun pr => pr.1.id = pid) = 1 ∧
      (uniqueRecs cat analyzer b).find? (fun pr => pr.1.id = pid) =
        (scanConcatRecs cat analyzer b).find? (fun pr => pr.1.id = pid)) ∧
    (generate_recommendations_for_scan cat analyzer b).Pairwise
      (fun x y => y.priority ≤ x.priority) ∧
    (∀ a c : Product × Nat, List.Sublist [a, c] (uniqueRecs cat analyzer b) → a.2 = c.2 →
      List.Sublist [a, c] (sortedUniqueRecs cat analyzer b)) ∧
    (generate_recommendations_for_scan cat analyzer b).length ≤ 10 := by
  refine ⟨fun pid hex => ⟨?_, ?_⟩, ?_, fun a c hsub heq => ?_, ?_⟩
  · exact dedupFirst_countP_of_mem _ [] pid (List.not_mem_nil pid) hex
  · exact dedupFirst_find? _ [] pid (List.not_mem_nil pid)
  · unfold generate_recommendations_for_scan
    dsimp only
    refine List.Pairwise.map _ (fun x y h => h) ?_
    exact (List.sorted_insertionSort scoreGe (uniqueRecs cat analyzer b)).sublist
      (List.take_sublist 10 _)
  · exact List.pair_sublist_insertionSort (le_of_eq heq.symm : scoreGe a c) hsub
  · unfold generate_recommendations_for_scan
    dsimp only
    rw [List.length_map, List.length_take]
    exact min_le_left _ _

/-- Witness for C2 at a three-product catalog with a duplicated unisex
product and a score tie between the two men products. -/
theorem generate_recommendations_dedup_sorted_witness :
    ((uniqueRecs wCat wAnalyzer wScan).countP (fun pr => pr.1.id = 3) = 1 ∧
      (uniqueRecs wCat wAnalyzer wScan).find? (fun pr => pr.1.id = 3) =
        (scanConcatRecs wCat wAnalyzer wScan).find? (fun pr => pr.1.id = 3)) ∧
    List.Sublist [(wp1, 20), (wp2, 20)] (sortedUniqueRecs wCat wAnalyzer wScan) := by
  refine ⟨(generate_recommendations_dedup_sorted wCat wAnalyzer wScan).1 3 ?_,
    (generate_recommendations_dedup_sorted wCat wAnalyzer wScan).2.2.1
      (wp1, 20) (wp2, 20) ?_ rfl⟩
  · decide
  · decide

/-- Membership in the scored output of recommend_products characterized:
the product passed the gender filter, has an available variant, and
carries exactly the additive priority score. -/
theorem recommend_products_mem (cat : Catalog) (analyzer : ColorAnalyzer)
    (m : Measurements) (skin_tone : String) (gender : String) (limit : Nat)
    {p : Product} {s : Nat}
    (h : (p, s) ∈ recommend_products cat analyzer m skin_tone gender limit) :
    p ∈ cat.products ∧ (p.gender = gender ∨ p.gender = "unisex") ∧
    ¬ (availableVariants cat.variants p).isEmpty = true ∧
    s = productScore p (availableVariants cat.variants p)
      (recommend_size cat.sizes m) (recommend_fit m)
      (recommend_colors analyzer skin_tone "warm") := by
  unfold recommend_products at h
  have h2 := List.take_subset _ _ h
  have h3 := (List.perm_insertionSort scoreGe _).mem_iff.mp h2
  rcases List.mem_filterMap.mp h3 with ⟨q, hq, hf⟩
  by_cases he : (availableVariants cat.variants q).isEmpty
  · rw [if_pos he] at hf
    cases hf
  · rw [if_neg he] at hf
    injection hf with hf
    injection hf with hq1 hq2
    subst hq1
    have hmem := List.mem_filter.mp hq
    refine ⟨hmem.1, ?_, he, hq2.symm⟩
    simpa using hmem.2

/-- C3: every pair emitted by recommend_products scores 5 plus 15 for a
fit-type match plus 10 for an available variant in the recommended size
plus 10 for an available variant in a recommended color, so the score lies
in [5, 40] and the product has an in-stock variant; a product with no
in-stock variant is never emitted. -/
theorem recommend_products_score_spec (cat : Catalog) (analyzer : ColorAnalyzer)
    (m : Measurements) (skin_tone : String) (gender : String) (limit : Nat) :
    (∀ p s, (p, s) ∈ recommend_products cat analyzer m skin_tone gender limit →
      (s = 5 + (if p.fit_type = recommend_fit m then 15 else 0) +
        (if (availableVariants cat.variants p).any
            (fun v => decide (v.size_name = recommend_size cat.sizes m))
          then 10 else 0) +
        (if (availableVariants cat.variants p).any
            (fun v => decide (v.color_name ∈
              recommend_colors analyzer skin_tone "warm"))
          then 10 else 0)) ∧
      5 ≤ s ∧ s ≤ 40 ∧
      ∃ v ∈ cat.variants, v.product_id = p.id ∧ 0 < v.quantity) ∧
    (∀ p : Product, (∀ v ∈ cat.variants, v.product_id = p.id → v.quantity = 0) →
      ∀ s, (p, s) ∉ recommend_products cat analyzer m skin_tone gender limit) := by
  have main : ∀ p s, (p, s) ∈ recommend_products cat analyzer m skin_tone gender limit →
      (s = 5 + (if p.fit_type = recommend_fit m then 15 else 0) +
        (if (availableVariants cat.variants p).any
            (fun v => decide (v.size_name = recommend_size cat.sizes m))
          then 10 else 0) +
        (if (availableVariants cat.variants p).any
            (fun v => decide (v.color_name ∈
              recommend_colors analyzer skin_tone "warm"))
          then 10 else 0)) ∧
      5 ≤ s ∧ s ≤ 40 ∧
      ∃ v ∈ cat.variants, v.product_id = p.id ∧ 0 < v.quantity := by
    intro p s hmem
    obtain ⟨-, -, hne, hs⟩ := recommend_products_mem cat analyzer m skin_tone gender
      limit hmem
    have hv : ∃ v ∈ cat.variants, v.product_id = p.id ∧ 0 < v.quantity := by
      rcases List.exists_mem_of_ne_nil (availableVariants cat.variants p)
          (fun hnil => hne (by rw [hnil]; rfl)) with ⟨v, hv⟩
      have := List.mem_filter.mp hv
      exact ⟨v, this.1, by simpa using this.2⟩
    refine ⟨?_, ?_, ?_, hv⟩
    · rw [hs]
      unfold productScore
      split_ifs <;> norm_num
    · rw [hs]
      unfold productScore
      split_ifs <;> norm_num
    · rw [hs]
      unfold productScore
      split_ifs <;> norm_num
  refine ⟨main, fun p hall s hmem => ?_⟩
  rcases (main p s hmem).2.2.2 with ⟨v, hv, hid, hq⟩
  exact hq.ne' (hall v hv hid)

/-- Witness for C3 at the fixture catalog, and the exclusion of a product
whose only variant has zero stock. -/
theorem recommend_products_score_spec_witness :
    (20 = 5 + (if wp1.fit_type = recommend_fit (scanMeasurements wScan) then 15 else 0) +
      (if (availableVariants wCat.variants wp1).any
          (fun v => decide (v.size_name =
            recommend_size wCat.sizes (scanMeasurements wScan)))
        then 10 else 0) +
      (if (availableVariants wCat.variants wp1).any
          (fun v => decide (v.color_name ∈ recommend_colors wAnalyzer "tan" "warm"))
        then 10 else 0)) ∧
    5 ≤ 20 ∧ 20 ≤ 40 ∧
    (∃ v ∈ wCat.variants, v.product_id = wp1.id ∧ 0 < v.quantity) ∧
    ∀ s, (wp0, s) ∉ recommend_products w0Cat wAnalyzer (scanMeasurements wScan)
      "tan" "men" 10 := by
  have h1 := (recommend_products_score_spec wCat wAnalyzer (scanMeasurements wScan)
    "tan" "men" 10).1 wp1 20 (by decide)
  have h2 := (recommend_products_score_spec w0Cat wAnalyzer (scanMeasurements wScan)
    "tan" "men" 10).2 wp0 (by decide)
  exact ⟨h1.1, h1.2.1, h1.2.2.1, h1.2.2.2, h2⟩

/-- C4: per examined product, the variant matcher emits the first in-stock
variant carrying the garment-adjusted size and a recommended color as a
perfect match; failing that, the first in-stock variant carrying the
adjusted size as a non-perfect match; failing that, the product is
excluded; every emitted record carries the adjusted size, positive stock,
and the comparison of the product fit with the recommended fit. -/
theorem matchForProduct_tiers (cat : Catalog) (rc : List String) (rfit : String)
    (m : Measurements) (body_shape : String) (p : Product) (rsize : String)
    (hr : rsize = recommend_size_for_garment cat.sizes m p.category body_shape) :
    ((∃ v ∈ cat.variants, v.product_id = p.id ∧ v.size_name = rsize ∧
        v.color_name ∈ rc ∧ 0 < v.quantity) →
      ∃ mr, matchForProduct cat rc rfit m body_shape p = some mr ∧
        mr.is_perfect_match = true ∧
        cat.variants.find? (tier1Pred p rsize rc) = some mr.variant) ∧
    ((¬ ∃ v ∈ cat.variants, v.product_id = p.id ∧ v.size_name = rsize ∧
        v.color_name ∈ rc ∧ 0 < v.quantity) →
      (∃ v ∈ cat.variants, v.product_id = p.id ∧ v.size_name = rsize ∧
        0 < v.quantity) →
      ∃ mr, matchForProduct cat rc rfit m body_shape p = some mr ∧
        mr.is_perfect_match = false ∧
        cat.variants.find? (tier2Pred p rsize) = some mr.variant) ∧
    ((¬ ∃ v ∈ cat.variants, v.product_id = p.id ∧ v.size_name = rsize ∧
        0 < v.quantity) →
      matchForProduct cat rc rfit m body_shape p = none) ∧
    (∀ mr, matchForProduct cat rc rfit m body_shape p = some mr →
      mr.variant.size_name = rsize ∧ 0 < mr.variant.quantity ∧
      mr.variant.product_id = p.id ∧ mr.recommended_size = rsize ∧
      (mr.fit_matches_recommendation = true ↔ p.fit_type = rfit)) := by
  subst hr
  unfold matchForProduct
  cases h1 : cat.variants.find? (tier1Pred p
      (recommend_size_for_garment cat.sizes m p.category body_shape) rc) with
  | some v =>
    have hv := List.find?_some h1
    simp only [tier1Pred, decide_eq_true_eq] at hv
    simp only [h1]
    refine ⟨fun _ => ⟨_, rfl, rfl, rfl⟩, fun hno _ => ?_, fun hno => ?_, ?_⟩
    · exact absurd ⟨v, List.mem_of_find?_eq_some h1, hv⟩ hno
    · exact absurd ⟨v, List.mem_of_find?_eq_some h1, hv.1, hv.2.1, hv.2.2.2⟩ hno
    · intro mr hmr
      injection hmr with hmr
      subst hmr
      exact ⟨hv.2.1, hv.2.2.2, hv.1, rfl, by simp⟩
  | none =>
    have hno1 : ¬ ∃ v ∈ cat.variants, v.product_id = p.id ∧
        v.size_name = recommend_size_for_garment cat.sizes m p.category body_shape ∧
        v.color_name ∈ rc ∧ 0 < v.quantity := by
      rintro ⟨v, hvm, hv⟩
      have := List.find?_eq_none.mp h1 v hvm
      simp only [tier1Pred, decide_eq_true_eq] at this
      exact this hv
    simp only [h1]
    cases h2 : cat.variants.find? (tier2Pred p
        (recommend_size_for_garment cat.sizes m p.category body_shape)) with
    | some v =>
      have hv := List.find?_some h2
      simp only [tier2Pred, decide_eq_true_eq] at hv
      simp only [h2]
      refine ⟨fun hex => absurd hex hno1, fun _ _ => ⟨_, rfl, rfl, rfl⟩,
        fun hno => ?_, ?_⟩
      · exact absurd ⟨v, List.mem_of_find?_eq_some h2, hv⟩ hno
      · intro mr hmr
        injection hmr with hmr
        subst hmr
        exact ⟨hv.2.1, hv.2.2, hv.1, rfl, by simp⟩
    | none =>
      have hno2 : ¬ ∃ v ∈ cat.variants, v.product_id = p.id ∧
          v.size_name = recommend_size_for_garment cat.sizes m p.category body_shape ∧
          0 < v.quantity := by
        rintro ⟨v, hvm, hv⟩
        have := List.find?_eq_none.mp h2 v hvm
        simp only [tier2Pred, decide_eq_true_eq] at this
        exact this hv
      simp only [h2]
      exact ⟨fun hex => absurd hex hno1, fun _ hex => absurd hex hno2,
        fun _ => trivial, fun mr hmr => by cases hmr⟩

/-- Witness for C4: a tier-1 perfect match and an out-of-stock
exclusion. -/
theorem matchForProduct_tiers_witness :
    (∃ mr, matchForProduct wVarCat ["black"] "regular" (scanMeasurements wScan)
        "rectangle" wp1 = some mr ∧ mr.is_perfect_match = true ∧
        wVarCat.variants.find? (tier1Pred wp1 "M" ["black"]) = some mr.variant) ∧
    matchForProduct w0Cat [] "regular" (scanMeasurements wScan) "rectangle"
      wp0 = none := by
  constructor
  · exact (matchForProduct_tiers wVarCat ["black"] "regular" (scanMeasurements wScan)
      "rectangle" wp1 "M" (by decide)).1 (by decide)
  · exact (matchForProduct_tiers w0Cat [] "regular" (scanMeasurements wScan)
      "rectangle" wp0 "M" (by decide)).2.2.1 (by decide)

/-- C5: the variant matcher output is sorted ascending by the composite
key (not fit_matches_recommendation, not is_perfect_match, product name),
is truncated to the caller-supplied limit, draws from the collected match
records, and two entries with equal boolean keys appear in alphabetical
product-name order. -/
theorem get_matching_product_variants_sorted (cat : Catalog)
    (analyzer : ColorAnalyzer) (b : BodyScan) (gender fit_type : Option String)
    (limit : Nat) :
    (get_matching_product_variants cat analyzer b gender fit_type limit).length
      ≤ limit ∧
    (get_matching_product_variants cat analyzer b gender fit_type limit).Pairwise
      matchLe ∧
    (∀ x ∈ get_matching_product_variants cat analyzer b gender fit_type limit,
      x ∈ collectedMatches cat analyzer b gender fit_type) ∧
    (∀ x y, List.Sublist [x, y]
        (get_matching_product_variants cat analyzer b gender fit_type limit) →
      x.fit_matches_recommendation = y.fit_matches_recommendation →
      x.is_perfect_match = y.is_perfect_match →
      strLe x.product.name y.product.name) := by
  have hp : (get_matching_product_variants cat analyzer b gender fit_type
      limit).Pairwise matchLe := by
    unfold get_matching_product_variants
    exact (List.sorted_insertionSort matchLe _).sublist (List.take_sublist _ _)
  refine ⟨?_, hp, ?_, ?_⟩
  · unfold get_matching_product_variants
    rw [List.length_take]
    exact min_le_left _ _
  · intro x hx
    unfold get_matching_product_variants at hx
    exact (List.perm_insertionSort matchLe _).mem_iff.mp (List.take_subset _ _ hx)
  · intro x y hsub h1 h2
    have hxy : matchLe x y := List.pairwise_pair.mp (List.Pairwise.sublist hsub hp)
    unfold matchLe at hxy
    rcases hxy with hlt | ⟨_, hrest⟩
    · rw [h1] at hlt
      exact absurd hlt (lt_irrefl _)
    · rcases hrest with hlt2 | ⟨_, hname⟩
      · rw [h2] at hlt2
        exact absurd hlt2 (lt_irrefl _)
      · exact hname

/-- Witness for C5 at a two-product catalog with equal boolean keys. -/
theorem get_matching_product_variants_sorted_witness :
    strLe wmr1.product.name wmr2.product.name ∧
    wmr1 ∈ collectedMatches wMCat wAnalyzer wScan (some "men") none ∧
    (get_matching_product_variants wMCat wAnalyzer wScan (some "men") none 6).length
      ≤ 6 := by
  refine ⟨(get_matching_product_variants_sorted wMCat wAnalyzer wScan (some "men")
      none 6).2.2.2 wmr1 wmr2 (by decide) (by decide) (by decide),
    (get_matching_product_variants_sorted wMCat wAnalyzer wScan (some "men")
      none 6).2.2.1 wmr1 (by decide),
    (get_matching_product_variants_sorted wMCat wAnalyzer wScan (some "men")
      none 6).1⟩

/-- C9 (amended): a gender pass draws on exactly the products whose gender
equals the requested gender or unisex, so a unisex product is examined by
every pass; and a unisex product that appears in the men pass output has
its first occurrence in the orchestrator concatenation inside the men
segment (the per-pass truncation to the limit can, however, push a unisex
product out of the men pass output entirely). -/
theorem recommend_products_gender_pool (cat : Catalog) (analyzer : ColorAnalyzer)
    (b : BodyScan) (gender : String) (limit : Nat) :
    (∀ p, p ∈ eligibleProducts cat.products gender ↔
      p ∈ cat.products ∧ (p.gender = gender ∨ p.gender = "unisex")) ∧
    (∀ p s, (p, s) ∈ recommend_products cat analyzer (scanMeasurements b)
        b.skin_tone gender limit →
      p.gender = gender ∨ p.gender = "unisex") ∧
    (∀ p s, (p, s) ∈ recommend_products cat analyzer (scanMeasurements b)
        b.skin_tone "men" 10 →
      (scanConcatRecs cat analyzer b).find? (fun pr => pr.1.id = p.id) =
        (recommend_products cat analyzer (scanMeasurements b) b.skin_tone
          "men" 10).find? (fun pr => pr.1.id = p.id)) := by
  refine ⟨fun p => ?_, fun p s h => ?_, fun p s h => ?_⟩
  · unfold eligibleProducts
    rw [List.mem_filter]
    simp
  · exact (recommend_products_mem cat analyzer (scanMeasurements b) b.skin_tone
      gender limit h).2.1
  · unfold scanConcatRecs
    rw [List.find?_append, List.find?_append]
    have hsome : ((recommend_products cat analyzer (scanMeasurements b) b.skin_tone
        "men" 10).find? (fun pr => pr.1.id = p.id)).isSome := by
      rw [List.find?_isSome]
      exact ⟨(p, s), h, by simp⟩
    rcases Option.isSome_iff_exists.mp hsome with ⟨q, hq⟩
    rw [hq]
    rfl

/-- C9 counterexample: the unisex product of the counterexample catalog is
scored by the orchestrator, yet appears in neither the men pass output nor
the women pass output; its first occurrence is in the unisex pass, so its
score is not fixed during the men pass. -/
theorem recommend_products_gender_pool_counterexample :
    (∀ pr ∈ recommend_products cexCat wAnalyzer (scanMeasurements wScan)
        wScan.skin_tone "men" 10, pr.1.id ≠ 20) ∧
    (∀ pr ∈ recommend_products cexCat wAnalyzer (scanMeasurements wScan)
        wScan.skin_tone "women" 10, pr.1.id ≠ 20) ∧
    (∃ pr ∈ recommend_products cexCat wAnalyzer (scanMeasurements wScan)
        wScan.skin_tone "unisex" 10, pr.1.id = 20) ∧
    (∃ pr ∈ uniqueRecs cexCat wAnalyzer wScan, pr.1.id = 20) := by decide

/-- Witness for amended C9 at the small fixture catalog, where the unisex
product does appear in the men pass output. -/
theorem recommend_products_gender_pool_witness :
    (wp3 ∈ eligibleProducts wCat.products "men" ↔
      wp3 ∈ wCat.products ∧ (wp3.gender = "men" ∨ wp3.gender = "unisex")) ∧
    (wp3.gender = "men" ∨ wp3.gender = "unisex") ∧
    (scanConcatRecs wCat wAnalyzer wScan).find? (fun pr => pr.1.id = wp3.id) =
      (recommend_products wCat wAnalyzer (scanMeasurements wScan) wScan.skin_tone
        "men" 10).find? (fun pr => pr.1.id = wp3.id) := by
  refine ⟨(recommend_products_gender_pool wCat wAnalyzer wScan "men" 10).1 wp3,
    (recommend_products_gender_pool wCat wAnalyzer wScan "men" 10).2.1 wp3 5
      (by decide),
    (recommend_products_gender_pool wCat wAnalyzer wScan "men" 10).2.2 wp3 5
      (by decide)⟩
